import Mathlib

/-!
Verification of the product catalog service (src/productcatalog/app.py).

The service holds a fixed five-product catalog and serves four GET routes:
a health check, a full listing, a lookup by id, and a substring search.
Each product handler also emits exactly one request-counter increment and
one duration-histogram record, tagged with endpoint/method (and a
found/not_found outcome tag for the lookup).  The definitions below embed
the catalog data and the pure input/output behaviour of each handler,
including the metric events it emits.
-/

/-- Model of Python str.lower on a single character: ASCII uppercase letters
are shifted to lowercase, every other character is unchanged.  All catalog
content and query constants considered here are ASCII, where this agrees
with Python. -/
def lowerChar (c : Char) : Char :=
  if 65 ≤ c.toNat ∧ c.toNat ≤ 90 then Char.ofNat (c.toNat + 32) else c

/-- Model of Python str.lower on a whole string (ASCII fragment). -/
def lowerStr (s : String) : String :=
  ⟨s.data.map lowerChar⟩

/-- Decides whether the first list is an initial segment of the second. -/
def listPrefixOf : List Char → List Char → Bool
  | [], _ => true
  | _ :: _, [] => false
  | a :: as, b :: bs => a == b && listPrefixOf as bs

/-- Decides whether sub occurs contiguously inside the second list; model of
the Python expression sub in s on strings. -/
def listSubstrOf (sub : List Char) : List Char → Bool
  | [] => sub.isEmpty
  | b :: bs => listPrefixOf sub (b :: bs) || listSubstrOf sub bs

/-- Model of the Python membership test sub in s for strings. -/
def strIn (sub s : String) : Bool :=
  listSubstrOf sub.data s.data

/-- Structured money value, the price_usd field of a product. -/
structure Money where
  currency_code : String
  units : Int
  nanos : Int
  deriving DecidableEq

/-- One catalog product record, with the fields of the Python dicts in
PRODUCTS. -/
structure Product where
  id : String
  name : String
  description : String
  picture : String
  price_usd : Money
  categories : List String
  deriving DecidableEq

def product1 : Product :=
  { id := "OLJCESPC7Z"
    name := "Vintage Typewriter"
    description := "This typewriter looks good in your living room."
    picture := "/static/img/products/typewriter.jpg"
    price_usd := { currency_code := "USD", units := 67, nanos := 990000000 }
    categories := ["vintage"] }

def product2 : Product :=
  { id := "66VCHSJNUP"
    name := "Vintage Camera Lens"
    description := "You won't have a camera to use it and it probably doesn't work anyway."
    picture := "/static/img/products/camera-lens.jpg"
    price_usd := { currency_code := "USD", units := 12, nanos := 490000000 }
    categories := ["photography", "vintage"] }

def product3 : Product :=
  { id := "1YMWWN1N4O"
    name := "Home Barista Kit"
    description := "Always wanted to brew coffee with Chemex and Aeropress at home?"
    picture := "/static/img/products/barista-kit.jpg"
    price_usd := { currency_code := "USD", units := 124, nanos := 0 }
    categories := ["kitchen"] }

def product4 : Product :=
  { id := "L9ECAV7KIM"
    name := "Terrarium"
    description := "This terrarium will looks great in your white painted living room."
    picture := "/static/img/products/terrarium.jpg"
    price_usd := { currency_code := "USD", units := 36, nanos := 450000000 }
    categories := ["gardening"] }

def product5 : Product :=
  { id := "2ZYFJ3GM2N"
    name := "Film Camera"
    description := "This camera looks like it's a film camera, but it's actually digital."
    picture := "/static/img/products/film-camera.jpg"
    price_usd := { currency_code := "USD", units := 2245, nanos := 0 }
    categories := ["photography", "vintage"] }

/-- The fixed catalog, in load order. -/
def PRODUCTS : List Product :=
  [product1, product2, product3, product4, product5]

/-- Label set attached to a metric measurement: endpoint, HTTP method, and an
optional outcome tag (the status key of the Python label dict). -/
structure Labels where
  endpoint : String
  method : String
  status : Option String
  deriving DecidableEq

/-- One metric emission: a counter increment by a given amount, or a duration
record (the recorded seconds value is wall-clock time and is not modelled,
only the labels are). -/
inductive MetricEvent where
  | counterAdd : Nat → Labels → MetricEvent
  | durationRecord : Labels → MetricEvent
  deriving DecidableEq

/-- Body of a get-by-id response: either a full product (unwrapped) or the
error object. -/
inductive GetBody where
  | productBody : Product → GetBody
  | errorBody : String → GetBody
  deriving DecidableEq

/-- Result of the list handler: HTTP status, response body content, the
product.count span attribute, and the metric events emitted. -/
structure ListResult where
  status : Nat
  products : List Product
  spanCount : Nat
  events : List MetricEvent
  deriving DecidableEq

/-- Result of the get-by-id handler: HTTP status, body, the product.found and
error span attributes, and the metric events emitted. -/
structure GetResult where
  status : Nat
  body : GetBody
  spanFound : Bool
  spanError : Bool
  events : List MetricEvent
  deriving DecidableEq

/-- Result of the search handler: HTTP status, the echoed query, the product
list and total of the body, the search.results_count span attribute, and the
metric events emitted. -/
structure SearchResult where
  status : Nat
  query : String
  products : List Product
  total : Nat
  spanResultsCount : Nat
  events : List MetricEvent
  deriving DecidableEq

/-- Result of the health endpoint. -/
structure HealthResult where
  status : Nat
  body : List (String × String)
  deriving DecidableEq

/-- Embedding of the health_check handler. -/
def health_check : HealthResult :=
  { status := 200
    body := [("status", "healthy"), ("service", "productcatalog")] }

/-- Embedding of the list_products handler. -/
def list_products : ListResult :=
  { status := 200
    products := PRODUCTS
    spanCount := PRODUCTS.length
    events := [MetricEvent.counterAdd 1 ⟨"/products", "GET", none⟩,
               MetricEvent.durationRecord ⟨"/products", "GET", none⟩] }

/-- The lookup inside get_product: first catalog product whose id equals the
requested id (Python next over a generator, None when exhausted). -/
def findProduct (product_id : String) : Option Product :=
  PRODUCTS.find? (fun p => p.id == product_id)

/-- Embedding of the get_product handler. -/
def get_product (product_id : String) : GetResult :=
  match findProduct product_id with
  | some product =>
      { status := 200
        body := GetBody.productBody product
        spanFound := true
        spanError := false
        events := [MetricEvent.counterAdd 1 ⟨"/products/\x7bid\x7d", "GET", some "found"⟩,
                   MetricEvent.durationRecord ⟨"/products/\x7bid\x7d", "GET", some "found"⟩] }
  | none =>
      { status := 404
        body := GetBody.errorBody "Product not found"
        spanFound := false
        spanError := true
        events := [MetricEvent.counterAdd 1 ⟨"/products/\x7bid\x7d", "GET", some "not_found"⟩,
                   MetricEvent.durationRecord ⟨"/products/\x7bid\x7d", "GET", some "not_found"⟩] }

/-- The per-product match predicate of search_products, applied to the
already-lowercased query: substring of the lowercased name, or of the
lowercased description, or of at least one lowercased category tag. -/
def matchesQuery (query : String) (p : Product) : Bool :=
  strIn query (lowerStr p.name) || strIn query (lowerStr p.description) ||
    p.categories.any (fun cat => strIn query (lowerStr cat))

/-- Embedding of the search_products handler.  The q argument is the optional
q request parameter; absent means Python args.get defaults it to the empty
string.  The query is lowercased before anything else, and an empty (falsy)
query skips the filter and yields the whole catalog. -/
def search_products (q : Option String) : SearchResult :=
  let query := lowerStr (q.getD "")
  let filtered_products :=
    if query = "" then PRODUCTS else PRODUCTS.filter (matchesQuery query)
  { status := 200
    query := query
    products := filtered_products
    total := filtered_products.length
    spanResultsCount := filtered_products.length
    events := [MetricEvent.counterAdd 1 ⟨"/products/search", "GET", none⟩,
               MetricEvent.durationRecord ⟨"/products/search", "GET", none⟩] }

/-- Decides whether a character is an ASCII uppercase letter, the characters
that Python str.lower changes on ASCII input. -/
def isUpperAscii (c : Char) : Bool :=
  decide (65 ≤ c.toNat) && decide (c.toNat ≤ 90)

/-- Decides whether a string holds at least one ASCII uppercase letter. -/
def hasUpper (s : String) : Bool :=
  s.data.any isUpperAscii

/-! Helper lemmas shared by the claim theorems. -/

/-- The empty list occurs inside every list. -/
theorem listSubstrOf_nil_left (l : List Char) : listSubstrOf [] l = true := by
  induction l with
  | nil => rfl
  | cons b bs ih => simp [listSubstrOf, listPrefixOf]

/-- The empty string is a substring of every string. -/
theorem strIn_nil_left (s : String) : strIn "" s = true :=
  listSubstrOf_nil_left s.data

/-- Every product matches the empty query. -/
theorem matchesQuery_nil (p : Product) : matchesQuery "" p = true := by
  simp [matchesQuery, strIn_nil_left]

/-- Both branches of the search handler produce the filter of the catalog by
the match predicate at the lowercased query. -/
theorem search_products_products_eq (q : Option String) :
    (search_products q).products =
      PRODUCTS.filter (matchesQuery (lowerStr (q.getD ""))) := by
  show (if lowerStr (q.getD "") = "" then PRODUCTS
        else PRODUCTS.filter (matchesQuery (lowerStr (q.getD "")))) =
      PRODUCTS.filter (matchesQuery (lowerStr (q.getD "")))
  split
  case isTrue h =>
    rw [h]
    exact (List.filter_eq_self.2 fun p _ => matchesQuery_nil p).symm
  case isFalse h => rfl

/-- Char.ofNat of a number below the surrogate range decodes back to it. -/
theorem char_toNat_ofNat_lt (n : Nat) (h : n < 55296) : (Char.ofNat n).toNat = n := by
  have hv : n.isValidChar := Or.inl h
  simp [Char.ofNat, hv, Char.ofNatAux, Char.toNat, UInt32.ofNat', UInt32.toNat]

/-- Lowercasing moves every ASCII uppercase letter. -/
theorem lowerChar_ne_of_upper {c : Char} (hu : isUpperAscii c = true) :
    lowerChar c ≠ c := by
  have hb : 65 ≤ c.toNat ∧ c.toNat ≤ 90 := by simpa [isUpperAscii] using hu
  intro he
  have h1 : (lowerChar c).toNat = c.toNat + 32 := by
    unfold lowerChar
    rw [if_pos hb]
    exact char_toNat_ofNat_lt _ (by omega)
  rw [he] at h1
  omega

/-- A character list holding an ASCII uppercase letter is changed by
character-wise lowercasing. -/
theorem map_lowerChar_ne {c : Char} (hu : isUpperAscii c = true) :
    ∀ l : List Char, c ∈ l → l.map lowerChar ≠ l := by
  intro l
  induction l with
  | nil => intro hc; cases hc
  | cons a as ih =>
    intro hc he
    rw [List.map_cons] at he
    injection he with h1 h2
    rcases List.mem_cons.1 hc with rfl | hmem
    · exact lowerChar_ne_of_upper hu h1
    · exact ih hmem h2

/-! The claim theorems. -/

/-- Claim C1: for every product p in the fixed catalog, get_product applied
to p.id returns the full unwrapped record p with status 200, sets the found
span attribute, and emits metrics tagged with the found outcome; and the
lookup is exactly case-sensitive, so the lowercased form of a catalog id
misses. -/
theorem get_product_hit_exact :
    (∀ p ∈ PRODUCTS,
      (get_product p.id).status = 200 ∧
      (get_product p.id).body = GetBody.productBody p ∧
      (get_product p.id).spanFound = true ∧
      (get_product p.id).events =
        [MetricEvent.counterAdd 1 ⟨"/products/\x7bid\x7d", "GET", some "found"⟩,
         MetricEvent.durationRecord ⟨"/products/\x7bid\x7d", "GET", some "found"⟩]) ∧
    (get_product "oljcespc7z").status = 404 :=
  ⟨by decide, rfl⟩

theorem get_product_hit_exact_witness :
    (get_product product1.id).body = GetBody.productBody product1 :=
  (get_product_hit_exact.1 product1 (by decide)).2.1

/-- Claim C2: for every query string q, search returns the subsequence of the
catalog, in catalog order, of exactly those products whose lowercased name,
description or some category tag holds the lowercased q as a substring, and
the total field equals the length of that subsequence. -/
theorem search_results_sound_and_complete (q : String) :
    (search_products (some q)).products.Sublist PRODUCTS ∧
    (∀ p ∈ PRODUCTS,
      (p ∈ (search_products (some q)).products ↔ matchesQuery (lowerStr q) p = true)) ∧
    (search_products (some q)).total = (search_products (some q)).products.length := by
  have h := search_products_products_eq (some q)
  refine ⟨?_, ?_, rfl⟩
  · rw [h]
    exact List.filter_sublist _
  · intro p hp
    rw [h]
    simp [List.mem_filter, hp, Option.getD_some]

theorem search_results_sound_and_complete_witness :
    product2 ∈ (search_products (some "photography")).products ↔
      matchesQuery (lowerStr "photography") product2 = true :=
  (search_results_sound_and_complete "photography").2.1 product2 (by decide)

/-- Claim C3: for every string x matching no catalog id, get_product returns
status 404 with exactly the error body Product not found; and no endpoint
ever produces a status other than 200 or 404 (in particular never a 5xx),
the get-by-id miss being the only 404. -/
theorem get_product_miss_404 :
    (∀ x : String, (∀ p ∈ PRODUCTS, p.id ≠ x) →
      (get_product x).status = 404 ∧
      (get_product x).body = GetBody.errorBody "Product not found" ∧
      (get_product x).spanFound = false) ∧
    (∀ x : String, (get_product x).status = 200 ∨ (get_product x).status = 404) ∧
    list_products.status = 200 ∧
    (∀ q : Option String, (search_products q).status = 200) ∧
    health_check.status = 200 := by
  refine ⟨?_, ?_, rfl, fun q => rfl, rfl⟩
  · intro x hx
    have hnone : findProduct x = none := by
      unfold findProduct
      rw [List.find?_eq_none]
      intro p hp
      simpa using hx p hp
    unfold get_product
    rw [hnone]
    exact ⟨rfl, rfl, rfl⟩
  · intro x
    unfold get_product
    cases h : findProduct x with
    | some p => exact Or.inl rfl
    | none => exact Or.inr rfl

theorem get_product_miss_404_witness :
    (get_product "DOES_NOT_EXIST").status = 404 :=
  (get_product_miss_404.1 "DOES_NOT_EXIST" (by decide)).1

/-- Claim C4: search on the empty query returns the full catalog in load
order, and the total field equals the catalog size; an absent q parameter
behaves the same. -/
theorem search_empty_query_full_catalog :
    (search_products (some "")).products = PRODUCTS ∧
    (search_products (some "")).total = PRODUCTS.length ∧
    (search_products none).products = PRODUCTS :=
  ⟨rfl, rfl, rfl⟩

/-- Claim C5: search is case-insensitive: queries with equal lowercased forms
produce identical results (in fact identical whole responses). -/
theorem search_case_insensitive (q1 q2 : String) (h : lowerStr q1 = lowerStr q2) :
    (search_products (some q1)).products = (search_products (some q2)).products ∧
    search_products (some q1) = search_products (some q2) := by
  have he : search_products (some q1) = search_products (some q2) := by
    unfold search_products
    have e : lowerStr (Option.getD (some q1) "") = lowerStr (Option.getD (some q2) "") := h
    rw [e]
  exact ⟨by rw [he], he⟩

theorem search_case_insensitive_witness :
    (search_products (some "VINTAGE")).products = (search_products (some "vintage")).products :=
  (search_case_insensitive "VINTAGE" "vintage" (by decide)).1

/-- Claim C6: every handled request emits exactly one counter increment (of
amount one) and exactly one duration record, in that order, with counter and
duration labels identical; list and search carry no outcome tag, and the
get-by-id labels carry the found or not_found outcome actually taken. -/
theorem metrics_once_per_request :
    (list_products.events =
      [MetricEvent.counterAdd 1 ⟨"/products", "GET", none⟩,
       MetricEvent.durationRecord ⟨"/products", "GET", none⟩]) ∧
    (∀ q : Option String, (search_products q).events =
      [MetricEvent.counterAdd 1 ⟨"/products/search", "GET", none⟩,
       MetricEvent.durationRecord ⟨"/products/search", "GET", none⟩]) ∧
    (∀ x : String, (get_product x).events =
      [MetricEvent.counterAdd 1
         ⟨"/products/\x7bid\x7d", "GET",
          some (if (findProduct x).isSome then "found" else "not_found")⟩,
       MetricEvent.durationRecord
         ⟨"/products/\x7bid\x7d", "GET",
          some (if (findProduct x).isSome then "found" else "not_found")⟩]) := by
  refine ⟨rfl, fun q => rfl, fun x => ?_⟩
  unfold get_product
  cases h : findProduct x with
  | some p => rfl
  | none => rfl

/-- Claim C7: search does not trim the query: matching is decided against the
lowercased query exactly as received, so every returned product matches the
untrimmed lowercased query, and a query with leading whitespace can miss
every product that its trimmed form matches. -/
theorem search_untrimmed_query :
    (∀ q : String, ∀ p ∈ (search_products (some q)).products,
      matchesQuery (lowerStr q) p = true) ∧
    (search_products (some " vintage")).total = 0 ∧
    (search_products (some "vintage")).total = 3 := by
  refine ⟨?_, by decide, by decide⟩
  intro q p hp
  rw [search_products_products_eq] at hp
  exact (List.mem_filter.1 hp).2

theorem search_untrimmed_query_witness :
    matchesQuery (lowerStr "vintage") product1 = true :=
  search_untrimmed_query.1 "vintage" product1 (by decide)

/-- Claim C8: the fixed catalog satisfies the data-model invariants: every
price has non-negative units and nanos within zero to 999999999, and the ids
are pairwise distinct. -/
theorem catalog_invariants :
    (∀ p ∈ PRODUCTS,
      0 ≤ p.price_usd.units ∧ 0 ≤ p.price_usd.nanos ∧
        p.price_usd.nanos ≤ 999999999) ∧
    (PRODUCTS.map Product.id).Nodup :=
  ⟨by decide, by decide⟩

theorem catalog_invariants_witness :
    0 ≤ product1.price_usd.units :=
  (catalog_invariants.1 product1 (by decide)).1

/-- Claim C9: on the five-product fixture, search for photography returns
exactly the two camera products, the ones with ids 66VCHSJNUP and 2ZYFJ3GM2N,
in catalog order, with total two. -/
theorem search_photography_concrete :
    (search_products (some "photography")).products = [product2, product5] ∧
    (search_products (some "photography")).total = 2 ∧
    product2.id = "66VCHSJNUP" ∧ product5.id = "2ZYFJ3GM2N" :=
  ⟨by decide, by decide, rfl, rfl⟩

/-- Claim C10: the query echoed in the search response is the lowercased form
of the supplied q parameter; whenever q holds an ASCII uppercase letter the
echoed query differs from the input, and an absent q echoes the empty
string. -/
theorem search_echoes_lowercased :
    (∀ q : String, (search_products (some q)).query = lowerStr q) ∧
    (∀ q : String, hasUpper q = true → (search_products (some q)).query ≠ q) ∧
    (search_products none).query = "" := by
  refine ⟨fun q => rfl, ?_, rfl⟩
  intro q hq hcontra
  have hl : lowerStr q = q := hcontra
  have hmap : q.data.map lowerChar = q.data := congrArg String.data hl
  unfold hasUpper at hq
  obtain ⟨c, hc, hcu⟩ := List.any_eq_true.1 hq
  exact map_lowerChar_ne hcu q.data hc hmap

theorem search_echoes_lowercased_witness :
    (search_products (some "VINTAGE")).query ≠ "VINTAGE" :=
  search_echoes_lowercased.2.1 "VINTAGE" (by decide)
